import Mathlib

/-!
# Verification of the leitmotif-boundary-regression training orchestrator

Shallow embedding of `src/train.py` (the `Trainer` class and `main`).
Numeric values (Python floats / torch scalar losses) are modelled as
rationals `ℚ`; tensors are modelled as lists of rationals, with the
three-dimensional `version_pred` tensor as a list of matrices so that
`permute(0, 2, 1)` is an actual axis realignment.  Loss primitives
(`BCELoss`, `CrossEntropyLoss`, `get_binary_f1`), the model forward pass
and the parameter update performed by `backward`/`clip_grad_norm_`/
`optimizer.step` are opaque collaborators of the orchestrator, so the
embedding takes them as components of an environment `Env`; the control
flow of `train.py` itself is translated line by line.
-/

/-- Errors a Python statement can raise: `ZeroDivisionError` from a
division by a zero integer (`total_loss / len(self.valid_loader)` with an
empty loader), and a generic runtime error standing for any exception
escaping a torch operation. -/
inductive PyError where
  | zeroDivision : PyError
  | runtime : PyError
deriving DecidableEq, Repr

/-- One entry of an optimizer per-parameter state dict
(`self.optimizer.state.values()` yields dicts `k -> v`); `isTensor`
records whether `torch.is_tensor(v)` holds and `device` where the value
resides. -/
structure OptimEntry where
  key : String
  isTensor : Bool
  value : ℚ
  device : String
deriving DecidableEq, Repr

/-- The optimizer's serializable internal state: one state dict per
parameter, as iterated by `self.optimizer.state.values()` in
`load_checkpoint`. -/
structure OptimState where
  entries : List (List OptimEntry)
deriving DecidableEq, Repr

/-- A checkpoint payload as built in `Trainer.save_checkpoint`
(lines 27-31): `{"epoch": ..., "model": ..., "optimizer": ...}`. -/
structure Checkpoint where
  epoch : Nat
  model : List ℚ
  optimizer : OptimState
deriving DecidableEq, Repr

/-- A checkpoint artifact on disk: `torch.save` writes the payload to
`checkpoints/{cfg.model}/{cfg.run_name}_epoch{cur_epoch}.pt`, so the
artifact is keyed by (model kind, run identifier, epoch). -/
structure CkptArtifact where
  model_kind : String
  run_name : String
  epoch : Nat
  data : Checkpoint
deriving DecidableEq, Repr

/-- The storage key of a checkpoint artifact: the (model kind, run
identifier, epoch) triple that determines the file path
`checkpoints/{model}/{run_name}_epoch{epoch}.pt`. -/
def ckptKey (a : CkptArtifact) : String × String × Nat :=
  (a.model_kind, a.run_name, a.epoch)

/-- One batch from the data loader: `cqt, leitmotif_gt, singing_gt,
version_gt = batch` (line 81).  `version_gt` is a per-frame categorical
index tensor. -/
structure Batch where
  cqt : List ℚ
  leitmotif_gt : List ℚ
  singing_gt : List ℚ
  version_gt : List (List Nat)
deriving DecidableEq, Repr

/-- The mutable state of a `Trainer` object together with the run-local
loop variables of `Trainer.train` (`num_iter`, `adv_iter`) and the set of
checkpoint artifacts written by this run. `train_mode` models
`model.train()` vs `model.eval()`, `mixup` the dataset's
`enable_mixup()`/`disable_mixup()` toggle and `frozen` whether
`freeze_backbone()` is in effect. -/
structure TrainerState where
  cur_epoch : Nat
  params : List ℚ
  optim : OptimState
  device : String
  train_mode : Bool
  mixup : Bool
  frozen : Bool
  num_iter : Nat
  adv_iter : Nat
  checkpoints : List CkptArtifact
deriving DecidableEq, Repr

/-- Configuration fields of `cfg` used by the orchestrator. -/
structure Cfg where
  split : String
  model : String
  run_name : String
  log_to_wandb : Bool
  train_singing : Bool
deriving DecidableEq, Repr

/-- Hyperparameter fields used by the orchestrator. `adv_grad_iter` is
kept as a rational since `adv_iter / adv_grad_iter` is Python float
division. -/
structure Hyperparams where
  num_epochs : Nat
  train_adv : Bool
  adv_grad_iter : ℚ
  lr : ℚ
  adv_lr_multiplier : ℚ
deriving DecidableEq, Repr

/-- External collaborators of the orchestrator: model forward pass,
loss primitives, metric primitive, and the parameter / optimizer-state
update realized by `backward`, `clip_grad_norm_` and `optimizer.step()`.
`model` returns `(leitmotif_pred, singing_pred, version_pred)` with
`version_pred` of shape (batch, time, class). -/
structure Env where
  model : List ℚ → List ℚ → List ℚ × List ℚ × List (List (List ℚ))
  bce : List ℚ → List ℚ → ℚ
  ce : List (List (List ℚ)) → List (List Nat) → ℚ
  getBinaryF1 : List ℚ → List ℚ → ℚ → ℚ × ℚ × ℚ
  clipStep : List ℚ → ℚ → List ℚ
  optimUpdate : OptimState → OptimState

/-- `version_pred.permute(0, 2, 1)` (lines 58 and 92): keep the batch
axis, swap the time and class axes, i.e. transpose every per-sample
matrix, realigning the class dimension to position 1 as
`CrossEntropyLoss` expects. -/
def permute021 (t : List (List (List ℚ))) : List (List (List ℚ)) :=
  t.map List.transpose

/-- The adversarial ramp multiplier of `Trainer.train`, line 100:
`adv_loss_multiplier = min(1, adv_iter / self.hyperparams.adv_grad_iter)`. -/
def advLossMultiplier (adv_iter : Nat) (adv_grad_iter : ℚ) : ℚ :=
  min 1 ((adv_iter : ℚ) / adv_grad_iter)

/-- One iteration of the training batch loop of `Trainer.train`
(lines 79-121).  The model forward pass produces
`(leitmotif_pred, singing_pred, version_pred)`; the primary loss is the
binary cross-entropy of the leitmotif prediction (line 87); under
`hyperparams.train_adv` the adversarial branch (lines 90-104) realigns
`version_pred` with `permute(0, 2, 1)`, forms the combined adversarial
loss, scales it by the ramp multiplier, adds it to the loss, and
increments `adv_iter`.  Lines 106-109 backpropagate the total loss,
clip gradients and apply the optimizer step (modelled by `env.clipStep`
on the parameters and `env.optimUpdate` on the optimizer's internal
state); line 121 increments `num_iter` unconditionally.  The wandb
logging calls do not touch trainer state and are omitted. -/
def trainBatchStep (env : Env) (cfg : Cfg) (hp : Hyperparams)
    (st : TrainerState) (b : Batch) : TrainerState :=
  let outs := env.model st.params b.cqt
  let leitmotif_pred := outs.1
  let singing_pred := outs.2.1
  let version_pred := outs.2.2
  let leitmotif_loss := env.bce leitmotif_pred b.leitmotif_gt
  let loss := leitmotif_loss
  if hp.train_adv then
    let version_pred2 := permute021 version_pred
    let version_loss := env.ce version_pred2 b.version_gt
    let adv_loss := version_loss
    let adv_loss2 :=
      if cfg.train_singing then adv_loss + env.bce singing_pred b.singing_gt
      else adv_loss
    let adv_loss_multiplier := advLossMultiplier st.adv_iter hp.adv_grad_iter
    let total := loss + adv_loss_multiplier * adv_loss2
    { st with params := env.clipStep st.params total,
              optim := env.optimUpdate st.optim,
              num_iter := st.num_iter + 1,
              adv_iter := st.adv_iter + 1 }
  else
    { st with params := env.clipStep st.params loss,
              optim := env.optimUpdate st.optim,
              num_iter := st.num_iter + 1 }

/-- Accumulator of the validation loop (lines 126-129):
`total_loss`, `total_precision`, `total_recall`, `total_f1`. -/
structure ValAcc where
  total_loss : ℚ
  total_precision : ℚ
  total_recall : ℚ
  total_f1 : ℚ
deriving DecidableEq, Repr

/-- One iteration of the validation batch loop (lines 130-143): add the
leitmotif binary cross-entropy to `total_loss`; only when
`cfg.log_to_wandb` is set, also accumulate precision / recall / F1 at
threshold `1/2`. -/
def valBatchAcc (env : Env) (cfg : Cfg) (params : List ℚ)
    (a : ValAcc) (b : Batch) : ValAcc :=
  let outs := env.model params b.cqt
  let leitmotif_pred := outs.1
  let leitmotif_loss := env.bce leitmotif_pred b.leitmotif_gt
  let a1 := { a with total_loss := a.total_loss + leitmotif_loss }
  if cfg.log_to_wandb then
    let fpr := env.getBinaryF1 leitmotif_pred b.leitmotif_gt (1 / 2)
    { a1 with total_precision := a1.total_precision + fpr.2.1,
              total_recall := a1.total_recall + fpr.2.2,
              total_f1 := a1.total_f1 + fpr.1 }
  else a1

/-- The validation phase of one epoch (lines 123-150): switch to
evaluation mode, disable mixup, accumulate over the validation loader,
and, when logging is enabled, compute the per-epoch means by dividing by
`len(self.valid_loader)` — in Python a division by the integer `0`
raises `ZeroDivisionError`, which the embedding makes explicit (in `ℚ`
division by zero would silently yield `0`).  Returns the trainer state
and the list of logged means. -/
def validationPhase (env : Env) (cfg : Cfg) (vb : List Batch)
    (st : TrainerState) : Except PyError (TrainerState × List ℚ) :=
  let st1 := { st with train_mode := false, mixup := false }
  let acc := vb.foldl (valBatchAcc env cfg st1.params) ⟨0, 0, 0, 0⟩
  if cfg.log_to_wandb then
    if vb.length = 0 then .error .zeroDivision
    else .ok (st1, [acc.total_loss / vb.length,
                    acc.total_precision / vb.length,
                    acc.total_recall / vb.length,
                    acc.total_f1 / vb.length])
  else .ok (st1, [])

/-- `Trainer.save_checkpoint` (lines 26-34): build the payload
`{"epoch": cur_epoch, "model": ..., "optimizer": ...}` and write it to
`checkpoints/{cfg.model}/{cfg.run_name}_epoch{cur_epoch}.pt`. -/
def save_checkpoint (cfg : Cfg) (t : TrainerState) : CkptArtifact :=
  { model_kind := cfg.model,
    run_name := cfg.run_name,
    epoch := t.cur_epoch,
    data := { epoch := t.cur_epoch, model := t.params, optimizer := t.optim } }

/-- The device-migration loop of `Trainer.load_checkpoint` (lines
41-44): for every entry of every per-parameter state dict, tensor-valued
entries are moved to the trainer's device with `v.to(self.device)`
(the numeric content is unchanged); non-tensor entries are untouched. -/
def migrateOptim (dev : String) (os : OptimState) : OptimState :=
  ⟨os.entries.map fun stt =>
    stt.map fun e => if e.isTensor then { e with device := dev } else e⟩

/-- `Trainer.load_checkpoint` (lines 36-44): restore `cur_epoch`, the
model parameters and the optimizer state from the checkpoint payload,
then migrate every tensor-valued optimizer state entry to the trainer's
device. -/
def load_checkpoint (t : TrainerState) (ck : Checkpoint) : TrainerState :=
  { t with cur_epoch := ck.epoch,
           params := ck.model,
           optim := migrateOptim t.device ck.optimizer }

/-- One epoch of `Trainer.train` (lines 75-152): record the epoch
counter, switch to train mode with mixup on, fold the training batch
loop over the training loader, run the validation phase, and append the
checkpoint artifact written by `save_checkpoint` at line 152. -/
def runEpoch (env : Env) (cfg : Cfg) (hp : Hyperparams)
    (tb vb : List Batch) (st : TrainerState) (e : Nat) :
    Except PyError TrainerState :=
  match validationPhase env cfg vb
      (tb.foldl (trainBatchStep env cfg hp)
        { st with cur_epoch := e, train_mode := true, mixup := true }) with
  | .error err => .error err
  | .ok (st3, _) =>
      .ok { st3 with checkpoints := st3.checkpoints ++ [save_checkpoint cfg st3] }

/-- The epoch loop `for epoch in range(self.cur_epoch, num_epochs)`
unrolled over an explicit list of epoch indices; an exception raised in
an epoch aborts the run. -/
def runEpochs (env : Env) (cfg : Cfg) (hp : Hyperparams)
    (tb vb : List Batch) : List Nat → TrainerState → Except PyError TrainerState
  | [], st => .ok st
  | e :: es, st =>
      match runEpoch env cfg hp tb vb st e with
      | .error err => .error err
      | .ok st' => runEpochs env cfg hp tb vb es st'

/-- `Trainer.train` (lines 68-155): initialize `num_iter = 0` and
`adv_iter = 0` and run the epoch loop over
`range(self.cur_epoch, hyperparams.num_epochs)`. -/
def trainRun (env : Env) (cfg : Cfg) (hp : Hyperparams)
    (tb vb : List Batch) (st : TrainerState) : Except PyError TrainerState :=
  runEpochs env cfg hp tb vb
    (List.range' st.cur_epoch (hp.num_epochs - st.cur_epoch))
    { st with num_iter := 0, adv_iter := 0 }

/-- A fallible model forward pass: any torch operation inside the
submodule-pretraining batch loop may raise, so the forward pass of
`_train_mlp_submodules` is modelled as possibly returning an exception
that propagates out of the routine. -/
def FModel : Type :=
  List ℚ → List ℚ → Except PyError (List ℚ × List ℚ × List (List (List ℚ)))

/-- One iteration of the batch loop of `_train_mlp_submodules`
(lines 51-65): forward pass (which may raise), realign `version_pred`,
compose the version loss plus, when `train_singing` holds, the singing
loss, then backpropagate / clip / step. -/
def mlpSubmoduleBatch (fmodel : FModel) (env : Env) (train_singing : Bool)
    (st : TrainerState) (b : Batch) : Except PyError TrainerState :=
  match fmodel st.params b.cqt with
  | .error e => .error e
  | .ok outs =>
      let singing_pred := outs.2.1
      let version_pred := permute021 outs.2.2
      let loss := env.ce version_pred b.version_gt
      let loss2 :=
        if train_singing then loss + env.bce singing_pred b.singing_gt
        else loss
      .ok { st with params := env.clipStep st.params loss2,
                    optim := env.optimUpdate st.optim }

/-- The inner `for batch in self.train_loader` loop of
`_train_mlp_submodules`.  A raised exception stops the loop; the trainer
object keeps the state it had at that point and the exception
propagates. -/
def runMlpBatches (fmodel : FModel) (env : Env) (train_singing : Bool) :
    TrainerState → List Batch → TrainerState × Option PyError
  | st, [] => (st, none)
  | st, b :: bs =>
      match mlpSubmoduleBatch fmodel env train_singing st b with
      | .error e => (st, some e)
      | .ok st' => runMlpBatches fmodel env train_singing st' bs

/-- The outer `for epoch in range(num_epochs)` loop of
`_train_mlp_submodules`. -/
def runMlpEpochs (fmodel : FModel) (env : Env) (train_singing : Bool)
    (batches : List Batch) : TrainerState → Nat → TrainerState × Option PyError
  | st, 0 => (st, none)
  | st, n + 1 =>
      match runMlpBatches fmodel env train_singing st batches with
      | (st', some e) => (st', some e)
      | (st', none) => runMlpEpochs fmodel env train_singing batches st' n

/-- `Trainer._train_mlp_submodules` (lines 46-66): enter train mode,
freeze the backbone, enable mixup, run the nested loops, and — only
after the loops complete normally — call `unfreeze_backbone()` at line
66.  There is no `try`/`finally`: when an exception escapes the loop the
routine exits with the backbone still frozen.  The result pairs the
trainer state at exit with the propagated exception, if any. -/
def trainMlpSubmodules (fmodel : FModel) (env : Env) (batches : List Batch)
    (num_epochs : Nat) (train_singing : Bool) (st : TrainerState) :
    TrainerState × Option PyError :=
  match runMlpEpochs fmodel env train_singing batches
      { st with train_mode := true, frozen := true, mixup := true } num_epochs with
  | (st2, some e) => (st2, some e)
  | (st2, none) => ({ st2 with frozen := false }, none)

/-- A named parameter as yielded by `model.named_parameters()`
(line 203); the tensor itself is abstracted to a rational stand-in. -/
structure NamedParam where
  name : List Char
  param : ℚ
deriving DecidableEq, Repr

/-- Does `pat` occur at the start of `s`?  (Building block for the
Python substring test `'mlp' in name`.) -/
def startsWith : List Char → List Char → Bool
  | [], _ => true
  | _ :: _, [] => false
  | p :: ps, c :: cs => (p == c) && startsWith ps cs

/-- The Python substring test `pat in s` on character lists. -/
def hasSubstr (pat : List Char) : List Char → Bool
  | [] => pat.isEmpty
  | c :: rest => startsWith pat (c :: rest) || hasSubstr pat rest

/-- The fixed marker `'mlp'` used to select auxiliary-head parameters
(lines 203-204). -/
def mlpMarker : List Char := ['m', 'l', 'p']

/-- Line 203: `[param for name, param in model.named_parameters() if
'mlp' in name]`. -/
def mlp_params (named : List NamedParam) : List NamedParam :=
  named.filter fun p => hasSubstr mlpMarker p.name

/-- Line 204: `[param for name, param in model.named_parameters() if
'mlp' not in name]`. -/
def backbone_params (named : List NamedParam) : List NamedParam :=
  named.filter fun p => ! hasSubstr mlpMarker p.name

/-- A parameter group handed to `torch.optim.Adam`: a parameter list and
its learning rate. -/
structure ParamGroup where
  group_params : List NamedParam
  lr : ℚ
deriving DecidableEq, Repr

/-- Lines 205-208: construct the Adam optimizer with the auxiliary-head
group at `lr * adv_lr_multiplier` and the backbone group at `lr`. -/
def adamGroups (named : List NamedParam) (lr adv_lr_multiplier : ℚ) :
    ParamGroup × ParamGroup :=
  ({ group_params := mlp_params named, lr := lr * adv_lr_multiplier },
   { group_params := backbone_params named, lr := lr })

/-- The configuration errors `main` can raise:
`ValueError("Invalid split method")` (line 177) and
`ValueError("Invalid model name")` (line 201). -/
inductive ConfigError where
  | invalidSplit : ConfigError
  | invalidModel : ConfigError
deriving DecidableEq, Repr

/-- The initial trainer built in `main` (line 209) before
`trainer.train()` is called: epoch 0, nothing frozen, no checkpoints
written. -/
def initTrainer (p0 : List ℚ) (os0 : OptimState) (dev : String) : TrainerState :=
  { cur_epoch := 0, params := p0, optim := os0, device := dev,
    train_mode := false, mixup := false, frozen := false,
    num_iter := 0, adv_iter := 0, checkpoints := [] }

/-- `main` (lines 158-211): the split selector is validated first
(lines 170-177, raising `ValueError` for anything outside
`{version, act}`), then the model selector (lines 183-201, raising for
anything outside `{RNN, CNN}`); only if both are valid is the trainer
constructed and `trainer.train()` entered.  A configuration error is
raised before the epoch loop starts, so the error branch carries no
trainer run at all — no checkpoint write and no optimizer step has
happened. -/
def mainRun (env : Env) (cfg : Cfg) (hp : Hyperparams) (tb vb : List Batch)
    (p0 : List ℚ) (os0 : OptimState) (dev : String) :
    Except ConfigError (Except PyError TrainerState) :=
  if cfg.split = "version" ∨ cfg.split = "act" then
    if cfg.model = "RNN" ∨ cfg.model = "CNN" then
      .ok (trainRun env cfg hp tb vb (initTrainer p0 os0 dev))
    else .error .invalidModel
  else .error .invalidSplit

/-- The checkpoint artifacts written by a `main` invocation: none when a
configuration error was raised before training, none when a run aborted
before its trainer state could be observed, otherwise the artifacts of
the completed run. -/
def writtenCheckpoints (r : Except ConfigError (Except PyError TrainerState)) :
    List CkptArtifact :=
  match r with
  | .ok (.ok st) => st.checkpoints
  | _ => []

/-- The number of optimizer steps performed by a `main` invocation (one
per processed training batch, counted by `num_iter`). -/
def optimizerStepCount (r : Except ConfigError (Except PyError TrainerState)) : Nat :=
  match r with
  | .ok (.ok st) => st.num_iter
  | _ => 0

/-- The per-state-dict numeric content of an optimizer state, forgetting
device placement: what "bit-for-bit equal optimizer state" means across
a device migration. -/
def optimValues (os : OptimState) : List (List (String × Bool × ℚ)) :=
  os.entries.map fun stt => stt.map fun e => (e.key, e.isTensor, e.value)

/-- Test fixture: a single batch with one frame. -/
def batchW : Batch :=
  { cqt := [1], leitmotif_gt := [1], singing_gt := [0], version_gt := [[0]] }

/-- Test fixture: concrete collaborators with constant losses, an
identity parameter update and an identity optimizer-state update, so
runs evaluate concretely. -/
def envW : Env :=
  { model := fun _ _ => ([1 / 2], [1 / 2], [[[1]]]),
    bce := fun _ _ => 1,
    ce := fun _ _ => 2,
    getBinaryF1 := fun _ _ _ => (1, 1, 1),
    clipStep := fun p _ => p,
    optimUpdate := fun o => o }

/-- Test fixture: the fallible forward pass that never raises, wrapping
the fixture model. -/
def fmodelOk : FModel := fun p c => .ok (envW.model p c)

/-- Test fixture: a forward pass whose first evaluation raises, standing
for a torch error in the middle of the pretraining loop. -/
def fmodelFail : FModel := fun _ _ => .error .runtime

/-- Test fixture: an optimizer state with one tensor-valued and one
non-tensor-valued entry, both on the cpu. -/
def optimW : OptimState :=
  ⟨[[{ key := "step", isTensor := false, value := 1, device := "cpu" },
     { key := "exp_avg", isTensor := true, value := 2, device := "cpu" }]]⟩

/-- Test fixture: a fresh trainer on the cuda device. -/
def trainerW : TrainerState :=
  { cur_epoch := 0, params := [0], optim := optimW, device := "cuda",
    train_mode := false, mixup := false, frozen := false,
    num_iter := 0, adv_iter := 0, checkpoints := [] }

/-- Test fixture: a trainer snapshot taken at epoch 5 on the cpu device,
used as the source of a saved checkpoint. -/
def trainer0W : TrainerState :=
  { trainerW with cur_epoch := 5, params := [3], device := "cpu" }

/-- Test fixture: a valid configuration with logging and the singing
auxiliary enabled. -/
def cfgW : Cfg :=
  { split := "version", model := "RNN", run_name := "test",
    log_to_wandb := true, train_singing := true }

/-- Test fixture: hyperparameters with adversarial training enabled and
a 4-step ramp. -/
def hpW : Hyperparams :=
  { num_epochs := 2, train_adv := true, adv_grad_iter := 4,
    lr := 1 / 1000, adv_lr_multiplier := 10 }

/-- Test fixture: two named parameters, one auxiliary-head
(`mlp.0.weight`) and one backbone (`gru.weight`). -/
def namedW : List NamedParam :=
  [{ name := "mlp.0.weight".toList, param := 1 },
   { name := "gru.weight".toList, param := 2 }]

/-- Test fixture: a configuration whose split selector is not in
`{version, act}`. -/
def cfgBad : Cfg :=
  { cfgW with split := "random" }

/-- Test fixture: a trainer snapshot taken at epoch 1, used as the
source of a checkpoint to resume from. -/
def trainerE1W : TrainerState :=
  { trainerW with cur_epoch := 1 }

/-- **C1.** The adversarial ramp multiplier equals
`min(1, adv_iter / adv_grad_iter)`: for every non-negative step count `s`
and positive ramp length `g`, it is `s / g` while `s < g`, exactly `1`
once `g ≤ s`, and it is monotonically non-decreasing in the step count. -/
theorem ramp_multiplier_c1 (s t : Nat) (g : ℚ) (hg : 0 < g) :
    ((s : ℚ) < g → advLossMultiplier s g = (s : ℚ) / g) ∧
    (g ≤ (s : ℚ) → advLossMultiplier s g = 1) ∧
    (s ≤ t → advLossMultiplier s g ≤ advLossMultiplier t g) := by
  refine ⟨fun h => ?_, fun h => ?_, fun h => ?_⟩
  · exact min_eq_right ((div_le_one hg).mpr h.le)
  · exact min_eq_left ((one_le_div hg).mpr h)
  · refine min_le_min le_rfl ?_
    have hst : (s : ℚ) ≤ (t : ℚ) := by exact_mod_cast h
    exact div_le_div_of_nonneg_right hst hg.le

/-- Witness for C1 at `s = 2`, `t = 6`, `g = 4`: the multiplier is `1/2`
below the ramp length, `1` at or beyond it, and non-decreasing. -/
theorem ramp_multiplier_c1_witness :
    advLossMultiplier 2 4 = (2 : ℚ) / 4 ∧ advLossMultiplier 6 4 = 1 ∧
    advLossMultiplier 2 4 ≤ advLossMultiplier 6 4 := by
  refine ⟨(ramp_multiplier_c1 2 6 4 (by norm_num)).1 (by norm_num),
          (ramp_multiplier_c1 6 6 4 (by norm_num)).2.1 (by norm_num),
          (ramp_multiplier_c1 2 6 4 (by norm_num)).2.2 (by norm_num)⟩

/-- **C2.** For every batch processed with adversarial training enabled,
the total loss handed to `backward` (and hence to the parameter update)
equals the leitmotif binary cross-entropy plus the ramp multiplier times
(the categorical cross-entropy of the class-first-realigned version
prediction, plus the singing binary cross-entropy when the singing
auxiliary is enabled), and the adversarial step counter is incremented
by exactly one. -/
theorem adv_loss_composition_c2 (env : Env) (cfg : Cfg) (hp : Hyperparams)
    (st : TrainerState) (b : Batch) (h : hp.train_adv = true) :
    trainBatchStep env cfg hp st b =
      { st with
        params := env.clipStep st.params
          (env.bce (env.model st.params b.cqt).1 b.leitmotif_gt +
            advLossMultiplier st.adv_iter hp.adv_grad_iter *
              (env.ce (permute021 (env.model st.params b.cqt).2.2) b.version_gt +
                (if cfg.train_singing then
                  env.bce (env.model st.params b.cqt).2.1 b.singing_gt
                 else 0))),
        optim := env.optimUpdate st.optim,
        num_iter := st.num_iter + 1,
        adv_iter := st.adv_iter + 1 } := by
  by_cases hs : cfg.train_singing <;>
    simp [trainBatchStep, h, hs]

/-- Witness for C2 at the concrete fixtures: `train_adv` holds and the
batch step produces exactly the composed loss and the incremented
adversarial counter. -/
theorem adv_loss_composition_c2_witness :
    hpW.train_adv = true ∧
    trainBatchStep envW cfgW hpW trainerW batchW =
      { trainerW with
        params := envW.clipStep trainerW.params
          (envW.bce (envW.model trainerW.params batchW.cqt).1 batchW.leitmotif_gt +
            advLossMultiplier trainerW.adv_iter hpW.adv_grad_iter *
              (envW.ce (permute021 (envW.model trainerW.params batchW.cqt).2.2)
                  batchW.version_gt +
                (if cfgW.train_singing then
                  envW.bce (envW.model trainerW.params batchW.cqt).2.1 batchW.singing_gt
                 else 0))),
        optim := envW.optimUpdate trainerW.optim,
        num_iter := trainerW.num_iter + 1,
        adv_iter := trainerW.adv_iter + 1 } :=
  ⟨rfl, adv_loss_composition_c2 envW cfgW hpW trainerW batchW rfl⟩

/-- **C7.** The validation phase is side-effect-free on training state:
whenever it completes, the model parameters, the optimizer's internal
state, the global step counter, the adversarial step counter and the set
of written checkpoints are unchanged (it only toggles the evaluation /
mixup flags), so zero optimizer steps occur during validation. -/
theorem validation_frame_c7 (env : Env) (cfg : Cfg) (vb : List Batch)
    (st st' : TrainerState) (ls : List ℚ)
    (h : validationPhase env cfg vb st = .ok (st', ls)) :
    st'.params = st.params ∧ st'.optim = st.optim ∧
    st'.num_iter = st.num_iter ∧ st'.adv_iter = st.adv_iter ∧
    st'.checkpoints = st.checkpoints := by
  unfold validationPhase at h
  by_cases hl : cfg.log_to_wandb
  · by_cases hz : vb.length = 0
    · simp [hl, hz] at h
    · simp [hl, hz] at h
      obtain ⟨h1, -⟩ := h
      subst h1
      exact ⟨rfl, rfl, rfl, rfl, rfl⟩
  · simp [hl] at h
    obtain ⟨h1, -⟩ := h
    subst h1
    exact ⟨rfl, rfl, rfl, rfl, rfl⟩

/-- Witness for C7: a concrete one-batch validation phase with logging
enabled completes and leaves parameters, optimizer state, counters and
checkpoints untouched. -/
theorem validation_frame_c7_witness :
    ({ trainerW with train_mode := false, mixup := false } : TrainerState).params
        = trainerW.params ∧
    ({ trainerW with train_mode := false, mixup := false } : TrainerState).optim
        = trainerW.optim ∧
    ({ trainerW with train_mode := false, mixup := false } : TrainerState).num_iter
        = trainerW.num_iter ∧
    ({ trainerW with train_mode := false, mixup := false } : TrainerState).adv_iter
        = trainerW.adv_iter ∧
    ({ trainerW with train_mode := false, mixup := false } : TrainerState).checkpoints
        = trainerW.checkpoints :=
  validation_frame_c7 envW cfgW [batchW] trainerW
    { trainerW with train_mode := false, mixup := false } [1, 1, 1, 1]
    (by simp [validationPhase, valBatchAcc, envW, cfgW])

/-- **C4, counterexample.** The claim says an empty validation stream
raises a descriptive error regardless of whether logging is enabled.  It
does not: with `log_to_wandb = false` the averaging block (lines
145-150) is skipped entirely, so an empty validation stream completes
without any error. -/
theorem empty_validation_c4_counterexample :
    validationPhase envW { cfgW with log_to_wandb := false } [] trainerW =
      .ok ({ trainerW with train_mode := false, mixup := false }, []) := rfl

/-- **C4, amended.** On an empty validation stream the code raises a
bare `ZeroDivisionError` (not a descriptive degenerate-metric error) at
`total_loss / len(self.valid_loader)` when logging is enabled, and
raises nothing at all when logging is disabled (the epoch proceeds to
checkpointing with no per-epoch means computed). -/
theorem empty_validation_c4 (env : Env) (cfg : Cfg) (st : TrainerState)
    (vb : List Batch) (h : vb = []) :
    validationPhase env cfg vb st =
      (if cfg.log_to_wandb then .error .zeroDivision
       else .ok ({ st with train_mode := false, mixup := false }, [])) := by
  subst h
  unfold validationPhase
  by_cases hl : cfg.log_to_wandb <;> simp [hl]

/-- Witness for the amended C4: with logging enabled, the concrete empty
validation stream raises `ZeroDivisionError`. -/
theorem empty_validation_c4_witness :
    validationPhase envW cfgW [] trainerW = .error .zeroDivision := by
  have h := empty_validation_c4 envW cfgW trainerW [] rfl
  simpa using h

/-- **C3, counterexample.** The claim says the backbone is unfrozen on
every exit path of `_train_mlp_submodules`, including exceptional ones.
It is not: the routine has no `try`/`finally`, so when the forward pass
raises on the first batch the routine exits with the backbone still
frozen and the exception propagating. -/
theorem mlp_unfreeze_c3_counterexample :
    (trainMlpSubmodules fmodelFail envW [batchW] 1 false trainerW).1.frozen = true ∧
    (trainMlpSubmodules fmodelFail envW [batchW] 1 false trainerW).2 =
      some PyError.runtime := by
  constructor <;> rfl

/-- **C3, amended.** When `_train_mlp_submodules` returns normally (no
exception escapes the loops), the backbone is unfrozen on exit; an
exception raised mid-loop propagates with the backbone still frozen. -/
theorem mlp_unfreeze_c3 (fmodel : FModel) (env : Env) (batches : List Batch)
    (n : Nat) (ts : Bool) (st : TrainerState)
    (h : (trainMlpSubmodules fmodel env batches n ts st).2 = none) :
    (trainMlpSubmodules fmodel env batches n ts st).1.frozen = false := by
  unfold trainMlpSubmodules at h ⊢
  set r := runMlpEpochs fmodel env ts batches
      { st with train_mode := true, frozen := true, mixup := true } n with hr
  clear_value r
  obtain ⟨st2, e⟩ := r
  cases e with
  | none => rfl
  | some err => exact Option.noConfusion h

/-- Witness for the amended C3: a concrete run of the pretraining
routine that completes without exception exits with the backbone
unfrozen. -/
theorem mlp_unfreeze_c3_witness :
    (trainMlpSubmodules fmodelOk envW [batchW] 1 false trainerW).2 = none ∧
    (trainMlpSubmodules fmodelOk envW [batchW] 1 false trainerW).1.frozen = false :=
  ⟨rfl, mlp_unfreeze_c3 fmodelOk envW [batchW] 1 false trainerW rfl⟩

/-- **C5.** Checkpoint round-trip: loading a saved snapshot restores the
epoch counter and the model parameters exactly, restores the optimizer
state with numeric content equal to what was saved, and leaves every
tensor-valued entry of the optimizer's internal state on the run's
active compute device (the orchestrator migrates each such entry in
`load_checkpoint`). -/
theorem checkpoint_roundtrip_c5 (cfg : Cfg) (t0 t : TrainerState) :
    (load_checkpoint t (save_checkpoint cfg t0).data).cur_epoch = t0.cur_epoch ∧
    (load_checkpoint t (save_checkpoint cfg t0).data).params = t0.params ∧
    optimValues (load_checkpoint t (save_checkpoint cfg t0).data).optim =
      optimValues t0.optim ∧
    ∀ stt ∈ (load_checkpoint t (save_checkpoint cfg t0).data).optim.entries,
      ∀ ent ∈ stt, ent.isTensor = true → ent.device = t.device := by
  refine ⟨rfl, rfl, ?_, ?_⟩
  · simp only [load_checkpoint, save_checkpoint, migrateOptim, optimValues,
      List.map_map]
    refine List.map_congr_left fun stt _ => ?_
    simp only [Function.comp_apply]
    rw [List.map_map]
    refine List.map_congr_left fun e _ => ?_
    by_cases he : e.isTensor <;> simp [Function.comp, he]
  · intro stt hstt ent hent htensor
    simp only [load_checkpoint, save_checkpoint, migrateOptim] at hstt
    obtain ⟨stt0, hstt0, rfl⟩ := List.mem_map.mp hstt
    obtain ⟨ent0, hent0, rfl⟩ := List.mem_map.mp hent
    by_cases he : ent0.isTensor
    · simp [he]
    · simp [he] at htensor

/-- Witness for C5: saving the epoch-5 cpu snapshot and loading it into
a cuda trainer restores epoch 5, parameters `[3]` and the optimizer's
numeric content, and the tensor-valued entry ends up on the cuda
device. -/
theorem checkpoint_roundtrip_c5_witness :
    (load_checkpoint trainerW (save_checkpoint cfgW trainer0W).data).cur_epoch =
      trainer0W.cur_epoch ∧
    (load_checkpoint trainerW (save_checkpoint cfgW trainer0W).data).params =
      trainer0W.params ∧
    optimValues (load_checkpoint trainerW (save_checkpoint cfgW trainer0W).data).optim =
      optimValues trainer0W.optim ∧
    ({ key := "exp_avg", isTensor := true, value := 2, device := "cuda" } :
        OptimEntry).device = trainerW.device := by
  obtain ⟨h1, h2, h3, h4⟩ := checkpoint_roundtrip_c5 cfgW trainer0W trainerW
  refine ⟨h1, h2, h3, ?_⟩
  exact h4
    [{ key := "step", isTensor := false, value := 1, device := "cpu" },
     { key := "exp_avg", isTensor := true, value := 2, device := "cuda" }]
    (by simp [load_checkpoint, save_checkpoint, migrateOptim, trainerW, trainer0W,
      optimW])
    { key := "exp_avg", isTensor := true, value := 2, device := "cuda" }
    (by simp) rfl

/-- **C8.** At optimizer construction the trainable parameters are
partitioned into exactly two groups: the auxiliary-head group (name
contains the fixed marker `mlp`) at learning rate
`lr * adv_lr_multiplier` and the backbone group (all others) at `lr`;
the groups are characterized by the marker test, every parameter of the
model lands in one of the two groups, and no parameter is in both. -/
theorem param_grouping_c8 (named : List NamedParam) (lr mult : ℚ) :
    (adamGroups named lr mult).1.lr = lr * mult ∧
    (adamGroups named lr mult).2.lr = lr ∧
    (∀ p, p ∈ (adamGroups named lr mult).1.group_params ↔
      p ∈ named ∧ hasSubstr mlpMarker p.name = true) ∧
    (∀ p, p ∈ (adamGroups named lr mult).2.group_params ↔
      p ∈ named ∧ hasSubstr mlpMarker p.name = false) ∧
    (∀ p ∈ named, p ∈ (adamGroups named lr mult).1.group_params ∨
      p ∈ (adamGroups named lr mult).2.group_params) ∧
    (∀ p, ¬ (p ∈ (adamGroups named lr mult).1.group_params ∧
      p ∈ (adamGroups named lr mult).2.group_params)) := by
  refine ⟨rfl, rfl, fun p => ?_, fun p => ?_, fun p hp => ?_, fun p hpp => ?_⟩
  · simp [adamGroups, mlp_params, List.mem_filter]
  · simp [adamGroups, backbone_params, List.mem_filter]
  · by_cases hs : hasSubstr mlpMarker p.name <;>
      simp [adamGroups, mlp_params, backbone_params, List.mem_filter, hp, hs]
  · obtain ⟨h1, h2⟩ := hpp
    simp [adamGroups, mlp_params, backbone_params, List.mem_filter] at h1 h2
    exact absurd h1.2 (by simp [h2.2])

/-- Witness for C8 at the two-parameter fixture: the learning rates are
`2 * 3` and `2`, the `mlp`-named parameter lands in the auxiliary group
and the `gru`-named parameter in the backbone group. -/
theorem param_grouping_c8_witness :
    (adamGroups namedW 2 3).1.lr = 2 * 3 ∧
    (adamGroups namedW 2 3).2.lr = 2 ∧
    ({ name := "mlp.0.weight".toList, param := 1 } : NamedParam) ∈
      (adamGroups namedW 2 3).1.group_params ∧
    ({ name := "gru.weight".toList, param := 2 } : NamedParam) ∈
      (adamGroups namedW 2 3).2.group_params := by
  obtain ⟨h1, h2, h3, h4, -, -⟩ := param_grouping_c8 namedW 2 3
  exact ⟨h1, h2, (h3 _).mpr ⟨by simp [namedW], by rfl⟩,
         (h4 _).mpr ⟨by simp [namedW], by rfl⟩⟩

/-- **C9.** For every configuration whose split selector is not in
`{version, act}` or whose model selector is not in `{RNN, CNN}`, `main`
raises a fatal `ValueError` before the epoch loop starts (the split
selector is checked first), and the invocation writes no checkpoint and
performs no optimizer step. -/
theorem config_validation_c9 (env : Env) (cfg : Cfg) (hp : Hyperparams)
    (tb vb : List Batch) (p0 : List ℚ) (os0 : OptimState) (dev : String)
    (h : ¬(cfg.split = "version" ∨ cfg.split = "act") ∨
         ¬(cfg.model = "RNN" ∨ cfg.model = "CNN")) :
    mainRun env cfg hp tb vb p0 os0 dev =
      .error (if cfg.split = "version" ∨ cfg.split = "act" then
        ConfigError.invalidModel else ConfigError.invalidSplit) ∧
    writtenCheckpoints (mainRun env cfg hp tb vb p0 os0 dev) = [] ∧
    optimizerStepCount (mainRun env cfg hp tb vb p0 os0 dev) = 0 := by
  by_cases hs : cfg.split = "version" ∨ cfg.split = "act"
  · have hm : ¬(cfg.model = "RNN" ∨ cfg.model = "CNN") :=
      h.resolve_left (not_not_intro hs)
    simp [mainRun, hs, hm, writtenCheckpoints, optimizerStepCount]
  · simp [mainRun, hs, writtenCheckpoints, optimizerStepCount]

/-- Witness for C9: the fixture configuration with split selector
`random` makes `main` fail fast with the invalid-split error, with no
checkpoints written and no optimizer steps taken. -/
theorem config_validation_c9_witness :
    mainRun envW cfgBad hpW [batchW] [batchW] [0] optimW "cpu" =
      .error ConfigError.invalidSplit ∧
    writtenCheckpoints (mainRun envW cfgBad hpW [batchW] [batchW] [0] optimW "cpu") = [] ∧
    optimizerStepCount (mainRun envW cfgBad hpW [batchW] [batchW] [0] optimW "cpu") = 0 := by
  obtain ⟨h1, h2, h3⟩ := config_validation_c9 envW cfgBad hpW [batchW] [batchW]
    [0] optimW "cpu" (Or.inl (by simp [cfgBad, cfgW]))
  refine ⟨?_, h2, h3⟩
  simpa [cfgBad, cfgW] using h1

/-- The training batch step touches only parameters, optimizer state and
the two step counters: the checkpoint list and the epoch counter are
unchanged. -/
theorem trainBatchStep_frame (env : Env) (cfg : Cfg) (hp : Hyperparams)
    (st : TrainerState) (b : Batch) :
    (trainBatchStep env cfg hp st b).checkpoints = st.checkpoints ∧
    (trainBatchStep env cfg hp st b).cur_epoch = st.cur_epoch := by
  by_cases h : hp.train_adv <;> simp [trainBatchStep, h]

/-- The whole training batch loop of an epoch leaves the checkpoint list
and the epoch counter unchanged. -/
theorem foldl_trainBatch_frame (env : Env) (cfg : Cfg) (hp : Hyperparams) :
    ∀ (tb : List Batch) (st : TrainerState),
    (tb.foldl (trainBatchStep env cfg hp) st).checkpoints = st.checkpoints ∧
    (tb.foldl (trainBatchStep env cfg hp) st).cur_epoch = st.cur_epoch
  | [], _ => ⟨rfl, rfl⟩
  | b :: bs, st => by
      rw [List.foldl_cons]
      have h1 := trainBatchStep_frame env cfg hp st b
      have h2 := foldl_trainBatch_frame env cfg hp bs (trainBatchStep env cfg hp st b)
      exact ⟨h2.1.trans h1.1, h2.2.trans h1.2⟩

/-- The validation phase completes (with some list of logged means)
whenever logging is disabled or the validation stream is non-empty. -/
theorem validationPhase_ok_of (env : Env) (cfg : Cfg) (vb : List Batch)
    (st : TrainerState) (hv : cfg.log_to_wandb = false ∨ vb ≠ []) :
    ∃ ls, validationPhase env cfg vb st =
      .ok ({ st with train_mode := false, mixup := false }, ls) := by
  unfold validationPhase
  rcases hv with hv | hv
  · simp [hv]
  · have hlen : ¬ vb.length = 0 := by simpa [List.length_eq_zero] using hv
    by_cases hl : cfg.log_to_wandb <;> simp [hl, hlen]

/-- One epoch completes and appends exactly one checkpoint artifact,
keyed by (model kind, run identifier, this epoch's index). -/
theorem runEpoch_ok (env : Env) (cfg : Cfg) (hp : Hyperparams)
    (tb vb : List Batch) (st : TrainerState) (e : Nat)
    (hv : cfg.log_to_wandb = false ∨ vb ≠ []) :
    ∃ st', runEpoch env cfg hp tb vb st e = .ok st' ∧
      st'.checkpoints.map ckptKey =
        st.checkpoints.map ckptKey ++ [(cfg.model, cfg.run_name, e)] := by
  obtain ⟨ls, hvp⟩ := validationPhase_ok_of env cfg vb
    (tb.foldl (trainBatchStep env cfg hp)
      { st with cur_epoch := e, train_mode := true, mixup := true }) hv
  have hfr := foldl_trainBatch_frame env cfg hp tb
    { st with cur_epoch := e, train_mode := true, mixup := true }
  unfold runEpoch
  rw [hvp]
  refine ⟨_, rfl, ?_⟩
  simp [save_checkpoint, ckptKey, hfr.1, hfr.2]

/-- The epoch loop over a list of epoch indices completes and writes
exactly one checkpoint per index, in order. -/
theorem runEpochs_ok (env : Env) (cfg : Cfg) (hp : Hyperparams)
    (tb vb : List Batch) (hv : cfg.log_to_wandb = false ∨ vb ≠ []) :
    ∀ (es : List Nat) (st : TrainerState),
    ∃ st', runEpochs env cfg hp tb vb es st = .ok st' ∧
      st'.checkpoints.map ckptKey = st.checkpoints.map ckptKey ++
        es.map (fun e => (cfg.model, cfg.run_name, e))
  | [], st => ⟨st, rfl, by simp⟩
  | e :: es, st => by
      obtain ⟨st1, h1, hk1⟩ := runEpoch_ok env cfg hp tb vb st e hv
      obtain ⟨st2, h2, hk2⟩ := runEpochs_ok env cfg hp tb vb hv es st1
      refine ⟨st2, ?_, ?_⟩
      · simp only [runEpochs]
        rw [h1]
        exact h2
      · rw [hk2, hk1]
        simp

/-- **C6.** A run started fresh (epoch counter 0, no artifacts) with a
non-empty validation stream persists exactly one checkpoint per epoch,
for any value of the logging flag: the written artifacts are keyed
`(model kind, run identifier, e)` for `e = 0, …, num_epochs - 1` in
order, there are exactly `num_epochs` of them, and the keys are pairwise
distinct, so no checkpoint overwrites another. -/
theorem checkpoint_per_epoch_c6 (env : Env) (cfg : Cfg) (hp : Hyperparams)
    (tb vb : List Batch) (p0 : List ℚ) (os0 : OptimState) (dev : String)
    (hv : vb ≠ []) :
    (trainRun env cfg hp tb vb (initTrainer p0 os0 dev)).map
        (fun st => st.checkpoints.map ckptKey) =
      .ok ((List.range hp.num_epochs).map fun e => (cfg.model, cfg.run_name, e)) ∧
    ((List.range hp.num_epochs).map fun e => (cfg.model, cfg.run_name, e)).length =
      hp.num_epochs ∧
    ((List.range hp.num_epochs).map fun e => (cfg.model, cfg.run_name, e)).Nodup := by
  obtain ⟨st', h1, hk⟩ := runEpochs_ok env cfg hp tb vb (Or.inr hv)
    (List.range' 0 hp.num_epochs)
    { initTrainer p0 os0 dev with num_iter := 0, adv_iter := 0 }
  refine ⟨?_, by simp, ?_⟩
  · have hrun : trainRun env cfg hp tb vb (initTrainer p0 os0 dev) =
        runEpochs env cfg hp tb vb (List.range' 0 hp.num_epochs)
          { initTrainer p0 os0 dev with num_iter := 0, adv_iter := 0 } := by
      unfold trainRun initTrainer
      simp
    rw [hrun, h1]
    show Except.ok (st'.checkpoints.map ckptKey) = _
    rw [hk]
    simp [initTrainer, List.range_eq_range']
  · have hinj : Function.Injective (fun e : Nat => (cfg.model, cfg.run_name, e)) := by
      intro a b hab
      simpa using congrArg (fun x : String × String × Nat => x.2.2) hab
    exact (List.nodup_range hp.num_epochs).map hinj

/-- Witness for C6: the fixture two-epoch run with one training and one
validation batch writes exactly the two artifacts keyed
`("RNN", "test", 0)` and `("RNN", "test", 1)`. -/
theorem checkpoint_per_epoch_c6_witness :
    (trainRun envW cfgW hpW [batchW] [batchW] (initTrainer [0] optimW "cuda")).map
        (fun st => st.checkpoints.map ckptKey) =
      .ok [("RNN", "test", 0), ("RNN", "test", 1)] := by
  have h := (checkpoint_per_epoch_c6 envW cfgW hpW [batchW] [batchW] [0] optimW
    "cuda" (List.cons_ne_nil _ _)).1
  rw [h]
  rfl

/-- **C10.** After resuming from a checkpoint saved at epoch `e` (with
`e < num_epochs` and a non-empty validation stream), the epoch loop
starts at epoch `e` itself: the run writes checkpoints for epochs
`e, …, num_epochs - 1`, and the first artifact written carries exactly
the key of the loaded checkpoint, so epoch `e` is trained and validated
again and its checkpoint file is rewritten rather than the run resuming
at `e + 1`. -/
theorem resume_epoch_c10 (env : Env) (cfg : Cfg) (hp : Hyperparams)
    (tb vb : List Batch) (t t0 : TrainerState)
    (hv : vb ≠ []) (he : t0.cur_epoch < hp.num_epochs) :
    (trainRun env cfg hp tb vb
        (load_checkpoint t (save_checkpoint cfg t0).data)).map
        (fun st => st.checkpoints.map ckptKey) =
      .ok (t.checkpoints.map ckptKey ++
        (List.range' t0.cur_epoch (hp.num_epochs - t0.cur_epoch)).map
          (fun e => (cfg.model, cfg.run_name, e))) ∧
    ((List.range' t0.cur_epoch (hp.num_epochs - t0.cur_epoch)).map
        (fun e => (cfg.model, cfg.run_name, e))).head? =
      some (ckptKey (save_checkpoint cfg t0)) := by
  obtain ⟨st', h1, hk⟩ := runEpochs_ok env cfg hp tb vb (Or.inr hv)
    (List.range' t0.cur_epoch (hp.num_epochs - t0.cur_epoch))
    { load_checkpoint t (save_checkpoint cfg t0).data with
        num_iter := 0, adv_iter := 0 }
  constructor
  · have hrun : trainRun env cfg hp tb vb
        (load_checkpoint t (save_checkpoint cfg t0).data) =
        runEpochs env cfg hp tb vb
          (List.range' t0.cur_epoch (hp.num_epochs - t0.cur_epoch))
          { load_checkpoint t (save_checkpoint cfg t0).data with
              num_iter := 0, adv_iter := 0 } := rfl
    rw [hrun, h1]
    show Except.ok (st'.checkpoints.map ckptKey) = _
    rw [hk]
    rfl
  · have hpos : hp.num_epochs - t0.cur_epoch ≠ 0 := Nat.sub_ne_zero_of_lt he
    obtain ⟨m, hm⟩ := Nat.exists_eq_succ_of_ne_zero hpos
    rw [hm]
    simp [ckptKey, save_checkpoint]
    rfl

/-- Witness for C10: resuming the fixture two-epoch run from the
checkpoint saved at epoch 1 re-runs epoch 1 and rewrites exactly the
artifact keyed `("RNN", "test", 1)` — the key of the loaded
checkpoint. -/
theorem resume_epoch_c10_witness :
    (trainRun envW cfgW hpW [batchW] [batchW]
        (load_checkpoint trainerW (save_checkpoint cfgW trainerE1W).data)).map
        (fun st => st.checkpoints.map ckptKey) =
      .ok [("RNN", "test", 1)] ∧
    ([("RNN", "test", 1)] : List (String × String × Nat)).head? =
      some (ckptKey (save_checkpoint cfgW trainerE1W)) := by
  obtain ⟨h1, h2⟩ := resume_epoch_c10 envW cfgW hpW [batchW] [batchW]
    trainerW trainerE1W (List.cons_ne_nil _ _) (by decide)
  constructor
  · rw [h1]
    rfl
  · exact h2
